import Mathlib

/-!
Shallow embedding of the rotary-encoder target sequencer in `src/main.py`.

The program keeps module-level globals: `target_angles` (a list of targets in
half-steps), `current_target_index`, `encoder_active`, `reset_detected`,
`triggered`, `loop_running`, the actuator output pin level, and the shared
encoder counter `r._value` (an integer number of half-steps, written by the
interrupt-driven decoder and by `r.set(0)`).

We model that global state as one record `SeqState`.  The background task
`rotary_loop` is a `while loop_running` loop whose body polls the counter;
we embed one execution of that body as `rotary_loop_iter`, with the counter
value the body reads given by the `position` field (the external decoder's
writes between polls are modelled by updating `position` before a poll, see
`run_polls`).  Printed messages and the `prompt_for_angles()` call are
modelled as a `PollEvent` record of which transitions the iteration took.

Arithmetic notes, so every comparison is over ℤ instead of IEEE floats:
* the body computes `angle = steps / 2.0` and `target = tgt / 2.0` where
  `steps` and `tgt` are integers of magnitude far below 2^52, so the float
  divisions are exact and the float comparisons `steps >= target`,
  `angle < 2`, `angle > 5` are exactly the rational comparisons
  `2*steps ≥ tgt`, `steps < 4`, `steps > 10`;
* `int(x)` on a (here exactly represented) rational truncates toward zero,
  which on a fraction with positive denominator is the T-division
  `Int.tdiv` of numerator by denominator.
-/

/-- The module-level mutable state of `src/main.py`:
`target_angles` .. `loop_running` are the globals declared at lines 19-25,
`output` is the level of the output `Pin`, and `position` is the shared
encoder counter `r._value` in half-steps. -/
structure SeqState where
  target_angles : List Int
  current_target_index : Nat
  encoder_active : Bool
  reset_detected : Bool
  triggered : Bool
  loop_running : Bool
  output : Bool
  position : Int
deriving DecidableEq, Repr

/-- Observable events of one iteration of the polling loop body:
`fired_trigger` - the body took the `output.on(); triggered = True` branch
(printing "Target reached");
`fired_reset` - the body took the `angle < 2 and not reset_detected` branch
(printing "Encoder reset to 0");
`completed` - the body additionally took the all-targets-completed branch,
calling `stop_encoder()` and `prompt_for_angles()` and breaking the loop. -/
structure PollEvent where
  fired_trigger : Bool
  fired_reset : Bool
  completed : Bool
deriving DecidableEq, Repr

/-- The event of an iteration that took no transition. -/
def noPollEvent : PollEvent := ⟨false, false, false⟩

/-- `stop_encoder()` (lines 85-89): clears `encoder_active` and drives the
output pin low.  It touches nothing else (in particular not `loop_running`,
the queue, the index or the latches). -/
def stop_encoder (s : SeqState) : SeqState :=
  { s with encoder_active := false, output := false }

/-- One execution of the body of the `while loop_running` loop in
`rotary_loop` (lines 27-68), including the loop condition itself: when
`loop_running` is false the loop has exited and nothing happens.

Faithful transliteration of the body:
* if `not encoder_active or not target_angles`: sleep and `continue`;
* `steps = r._value`; `target = target_angles[current_target_index] / 2.0`;
* `if not triggered and steps >= target`: output on, `triggered = True`;
  `else`: output off;
* `if angle < 2 and not reset_detected`: `r.set(0)`, latch `reset_detected`,
  clear `triggered`, advance the index; if the index now reaches the queue
  length: `stop_encoder()`, `loop_running = False`, prompt, `break`
  (the `break` skips the `angle > 5` check);
* `if angle > 5`: clear `reset_detected`.

The index read `target_angles[current_target_index]` is total here via
`getD`; in every state reached by the program the index is in range when
this branch runs (the completion branch deactivates the loop as soon as the
index reaches the queue length). -/
def rotary_loop_iter (s : SeqState) : SeqState × PollEvent :=
  if s.loop_running = false then (s, noPollEvent)
  else if s.encoder_active = false ∨ s.target_angles = [] then (s, noPollEvent)
  else
    let steps := s.position
    let tgt := s.target_angles.getD s.current_target_index 0
    let hit : Bool := !s.triggered && decide (tgt ≤ 2 * steps)
    let s1 := if hit then { s with output := true, triggered := true }
              else { s with output := false }
    if steps < 4 ∧ s1.reset_detected = false then
      let s2 := { s1 with position := 0, reset_detected := true, triggered := false,
                          current_target_index := s1.current_target_index + 1 }
      if s.target_angles.length ≤ s2.current_target_index then
        ({ stop_encoder s2 with loop_running := false }, ⟨hit, true, true⟩)
      else
        (if 10 < steps then { s2 with reset_detected := false } else s2,
         ⟨hit, true, false⟩)
    else
      (if 10 < steps then { s1 with reset_detected := false } else s1,
       ⟨hit, false, false⟩)

/-! ### The command interface (`set_angles`, lines 70-83)

Python strings are modelled as their character lists; `str.strip`,
`str.split(sep)` and `str.split(" ", 1)` are transliterated below on
`List Char`.  `float(a)` applied to a plain decimal literal is modelled as
the exact value the literal denotes (`parseDecimal`): for the literals
that appear in the claims the binary-float rounding performed by `float`
is exact, and `int` then truncates toward zero (`Int.tdiv`). -/

/-- The whitespace characters removed by Python `str.strip()`. -/
def pyIsSpace (c : Char) : Bool :=
  c = ' ' ∨ c = '\t' ∨ c = '\n' ∨ c = '\r' ∨ c = '\x0b' ∨ c = '\x0c'

/-- Python `str.strip()`: drop leading and trailing whitespace. -/
def pyStrip (l : List Char) : List Char :=
  ((l.dropWhile pyIsSpace).reverse.dropWhile pyIsSpace).reverse

/-- Python `str.split(sep)` for a one-character separator: splits at every
occurrence, keeping empty pieces, so the result is always nonempty. -/
def pySplit (sep : Char) : List Char → List (List Char)
  | [] => [[]]
  | c :: rest =>
      let r := pySplit sep rest
      if c = sep then [] :: r
      else
        match r with
        | [] => [[c]]
        | t :: ts => (c :: t) :: ts

/-- Python `str.split(" ", 1)`: the part before the first space, and, when a
space exists, the whole remainder after it. -/
def pySplitFirstSpace : List Char → List Char × Option (List Char)
  | [] => ([], none)
  | c :: rest =>
      if c = ' ' then ([], some rest)
      else
        let r := pySplitFirstSpace rest
        (c :: r.1, r.2)

/-- The natural number denoted by a list of decimal digits (most significant
first). -/
def digitsVal (l : List Char) : Nat :=
  l.foldl (fun n c => 10 * n + (c.toNat - 48)) 0

/-- Python `float(a)` on the token strings this program receives: an
optional sign, an integer part and an optional fractional part, at least
one digit in total.  The value is kept as an exact numerator/denominator
pair (the denominator a power of ten), so that the whole command pipeline
computes over ℤ.  Any other shape (for the program: a `ValueError`) is
`none`.  (`float` also accepts exponents, `inf`/`nan` and underscores; no
claim exercises those, and on literals of at most 15 significant digits the
exact decimal value determines every comparison and truncation the program
performs, binary rounding being that close.) -/
def parseDecimal (l : List Char) : Option (Int × Nat) :=
  let sr : Int × List Char :=
    match l with
    | '-' :: r => (-1, r)
    | '+' :: r => (1, r)
    | r => (1, r)
  let intPart := sr.2.takeWhile Char.isDigit
  let after := sr.2.dropWhile Char.isDigit
  match after with
  | [] =>
      if intPart = [] then none
      else some (sr.1 * digitsVal intPart, 1)
  | '.' :: frac =>
      if frac.all Char.isDigit ∧ (intPart ≠ [] ∨ frac ≠ []) then
        some (sr.1 * ((digitsVal intPart * 10 ^ frac.length : Nat) + digitsVal frac),
              10 ^ frac.length)
      else none
  | _ => none

/-- The rational value a parsed decimal literal denotes (used only in
statements, never in the executable pipeline). -/
def decValue (p : Int × Nat) : ℚ :=
  (p.1 : ℚ) / (p.2 : ℚ)

/-- One element of the list comprehension at line 75:
`int(float(a.strip()) * 2)`.  Python `int` truncates toward zero, which on
the exact fraction `(2 * num) / den` is the T-division `Int.tdiv`.  `none`
models the `ValueError` raised by `float` on an unparseable token. -/
def parse_token (a : List Char) : Option Int :=
  (parseDecimal (pyStrip a)).map fun p => Int.tdiv (2 * p.1) (p.2 : Int)

/-- Lines 74-75 of `set_angles`: split off the word before the first space
of the stripped command, take the remainder (its absence raises an
`IndexError`, modelled as `none`), split it on commas, keep the tokens that
strip to something nonempty, and convert each.  A failing conversion makes
the whole command fail (the comprehension raises before any assignment). -/
def parse_targets (cmd : List Char) : Option (List Int) :=
  match (pySplitFirstSpace (pyStrip cmd)).2 with
  | none => none
  | some raw =>
      ((pySplit ',' raw).filter fun a => pyStrip a ≠ []).mapM parse_token

/-- `set_angles(cmd)` (lines 70-83).  On success the queue, index and
activity flags are assigned and a success message is printed (`true`); the
new polling thread this spawns is the loop embedded by `rotary_loop_iter`.
Any exception lands in the bare `except`, which prints the
"Invalid format" rejection (`false`) with every global untouched. -/
def set_angles (s : SeqState) (cmd : List Char) : SeqState × Bool :=
  match parse_targets cmd with
  | some angles =>
      ({ s with target_angles := angles, current_target_index := 0,
                encoder_active := true, loop_running := true }, true)
  | none => (s, false)

/-- Runs a sequence of polls.  Before each poll the externally driven
encoder counter is set to the next observed value (the decoder writes
`r._value` concurrently; the sequencer only ever samples it, so a run of
the loop is determined by the sampled values). -/
def run_polls (s : SeqState) (obs : List Int) : SeqState × List PollEvent :=
  match obs with
  | [] => (s, [])
  | p :: rest =>
      let r1 := rotary_loop_iter { s with position := p }
      let r2 := run_polls r1.1 rest
      (r2.1, r1.2 :: r2.2)

/-! ### Concrete states used by the closed theorems below -/

/-- The state at program start: empty queue, all flags clear, counter at
zero (the globals at lines 19-25, the pin initialised low, `r` at
`min_val = 0`). -/
def initState : SeqState :=
  { target_angles := [], current_target_index := 0, encoder_active := false,
    reset_detected := false, triggered := false, loop_running := false,
    output := false, position := 0 }

/-- The state right after the command `set 45,90` is accepted at startup:
queue `[90, 180]` half-steps, index 0, sequencer active. -/
def afterSet4590 : SeqState := (set_angles initState "set 45,90".data).1

/-- `afterSet4590` once the mechanism has rotated the counter to 45
half-steps (22.5 degrees); the pass through 1..10 on the way up latched and
then cleared nothing of interest, and `reset_detected` is true as the
near-zero band latches it on the very first polls. -/
def at45 : SeqState := { afterSet4590 with position := 45, reset_detected := true }

/-- The state produced by the poll that fires the trigger at 90 half-steps
for the queue `[90, 180]`. -/
def afterTrigger90 : SeqState :=
  (rotary_loop_iter { afterSet4590 with position := 90, reset_detected := true }).1

/-- A triggered state on the last target of the queue `[90]`, with the
mechanism returned to 2 half-steps (1 degree): the next poll takes the
reset transition and completes the run. -/
def lastTargetNearZero : SeqState :=
  { target_angles := [90], current_target_index := 0, encoder_active := true,
    reset_detected := false, triggered := true, loop_running := true,
    output := true, position := 2 }

/-- C1: the claim says the actuator is set on exactly when the sequencer
first observes `position >= queue[current_target_index]`, so for the queue
`[90, 180]` built from `set 45,90` not at any position below 90.  The code
instead compares the half-step count `steps` against
`target_angles[i] / 2.0` (a value in degrees), so for that queue the poll
at position 45 already turns the actuator on: the claim fails on the code
at position 45 < 90. -/
theorem C1_trigger_fires_at_half_target :
    afterSet4590.target_angles = [90, 180] ∧
    at45.position = 45 ∧ at45.position < 90 ∧ at45.triggered = false ∧
    (rotary_loop_iter at45).1.output = true ∧
    (rotary_loop_iter at45).2.fired_trigger = true := by
  decide

/-- C2: the claim says that after the trigger the actuator stays on across
every subsequent poll until the near-zero reset.  In the code the
`else: output.off()` branch runs on every poll in which the trigger
condition is not freshly met - in particular on the very next poll after
the trigger, when `triggered` is already latched - so the actuator is
driven low again one poll later with the position unchanged at 90 and no
reset anywhere near. -/
theorem C2_actuator_off_on_next_poll :
    afterTrigger90.output = true ∧ afterTrigger90.triggered = true ∧
    afterTrigger90.position = 90 ∧
    (rotary_loop_iter afterTrigger90).1.output = false ∧
    (rotary_loop_iter afterTrigger90).2.fired_reset = false := by
  decide

/-- C3: the claim says the reset transition is taken only from the
Triggered state, never for an index whose target was not yet reached.  The
code's reset branch tests only `angle < 2 and not reset_detected`, with no
`triggered` guard: on the very first poll after `set 45,90`, with the
counter still at 0 and target 90 never reached, the reset fires and
advances `current_target_index` to 1, silently consuming the first
target. -/
theorem C3_reset_fires_untriggered :
    afterSet4590.triggered = false ∧ afterSet4590.position = 0 ∧
    afterSet4590.current_target_index = 0 ∧
    (rotary_loop_iter afterSet4590).2.fired_trigger = false ∧
    (rotary_loop_iter afterSet4590).2.fired_reset = true ∧
    (rotary_loop_iter afterSet4590).1.current_target_index = 1 := by
  decide

/-- C5: the claim says a `set` command whose target list is empty (only
empty/whitespace tokens between commas) is rejected with no state change.
The code's list comprehension raises nothing on such input: it just
produces `[]`, so `set ,` is accepted (the success message is printed),
the queue is replaced by the empty list and the sequencer is activated. -/
theorem C5_empty_set_accepted :
    parse_targets "set ,".data = some [] ∧
    set_angles afterTrigger90 "set ,".data =
      ({ afterTrigger90 with target_angles := [], current_target_index := 0,
                             encoder_active := true, loop_running := true }, true) := by
  decide

/-- C7: `stop` is idempotent: from any state, stopping once or twice gives
the same state, with the sequencer inactive (Idle) and the actuator off
both times; stopping an already-idle sequencer is accepted and leaves the
actuator off. -/
theorem C7_stop_idempotent (s : SeqState) :
    stop_encoder (stop_encoder s) = stop_encoder s ∧
    (stop_encoder s).encoder_active = false ∧
    (stop_encoder s).output = false ∧
    (stop_encoder (stop_encoder s)).encoder_active = false ∧
    (stop_encoder (stop_encoder s)).output = false := by
  refine ⟨rfl, rfl, rfl, rfl, rfl⟩
/-- C6: a malformed start command (one whose target list fails to parse,
e.g. a non-numeric token as in `set abc`) is rejected - the `except` branch
prints the diagnostic - and mutates no sequencer state: the returned state
is the old one, so queue, index, activity flag and the previous
Idle/Running state are exactly as before. -/
theorem C6_malformed_set_no_mutation (s : SeqState) (cmd : List Char)
    (h : parse_targets cmd = none) :
    set_angles s cmd = (s, false) ∧
    (set_angles s cmd).1.target_angles = s.target_angles ∧
    (set_angles s cmd).1.current_target_index = s.current_target_index ∧
    (set_angles s cmd).1.encoder_active = s.encoder_active ∧
    (set_angles s cmd).1.loop_running = s.loop_running := by
  simp [set_angles, h]

/-- Witness for C6 at the running state after `set 45,90` and the command
`set abc`. -/
theorem C6_malformed_set_no_mutation_witness :
    set_angles afterSet4590 "set abc".data = (afterSet4590, false) ∧
    (set_angles afterSet4590 "set abc".data).1.target_angles = afterSet4590.target_angles ∧
    (set_angles afterSet4590 "set abc".data).1.current_target_index = afterSet4590.current_target_index ∧
    (set_angles afterSet4590 "set abc".data).1.encoder_active = afterSet4590.encoder_active ∧
    (set_angles afterSet4590 "set abc".data).1.loop_running = afterSet4590.loop_running :=
  C6_malformed_set_no_mutation afterSet4590 "set abc".data (by decide)

/-- A state whose latches and output carry leftovers of a previous run,
used to exhibit the frame of `set_angles`. -/
def staleLatches : SeqState :=
  { target_angles := [40], current_target_index := 1, encoder_active := false,
    reset_detected := true, triggered := true, loop_running := false,
    output := true, position := 7 }

/-- C10: an accepted start command replaces the queue, zeroes the index and
sets both activity flags, and changes nothing else: the `triggered` and
`reset_detected` latches, the actuator level and the counter all carry
whatever values they had before the command. -/
theorem C10_set_frame (s : SeqState) (cmd : List Char) (qs : List Int)
    (h : parse_targets cmd = some qs) :
    set_angles s cmd =
      ({ s with target_angles := qs, current_target_index := 0,
                encoder_active := true, loop_running := true }, true) ∧
    (set_angles s cmd).1.triggered = s.triggered ∧
    (set_angles s cmd).1.reset_detected = s.reset_detected ∧
    (set_angles s cmd).1.output = s.output ∧
    (set_angles s cmd).1.position = s.position := by
  simp [set_angles, h]

/-- Witness for C10: `set 45,90` accepted in a state with both latches set,
the output high and the counter at 7; all four survive the command. -/
theorem C10_set_frame_witness :
    set_angles staleLatches "set 45,90".data =
      ({ staleLatches with target_angles := [90, 180], current_target_index := 0,
                           encoder_active := true, loop_running := true }, true) ∧
    (set_angles staleLatches "set 45,90".data).1.triggered = staleLatches.triggered ∧
    (set_angles staleLatches "set 45,90".data).1.reset_detected = staleLatches.reset_detected ∧
    (set_angles staleLatches "set 45,90".data).1.output = staleLatches.output ∧
    (set_angles staleLatches "set 45,90".data).1.position = staleLatches.position :=
  C10_set_frame staleLatches "set 45,90".data [90, 180] (by decide)

set_option maxHeartbeats 1000000 in
/-- C9: when the reset transition fires with the advanced index reaching
the queue length, the run completes: `stop_encoder()` turns the actuator
off and deactivates the sequencer, `loop_running` is cleared so polling
halts, and `prompt_for_angles()` is signalled (the `completed` event).
Afterwards no poll changes anything - in particular none alters the
counter - whatever position the mechanism moves to. -/
theorem C9_completion (s : SeqState)
    (hrun : s.loop_running = true) (hact : s.encoder_active = true)
    (hq : s.target_angles ≠ []) (hpos : s.position < 4)
    (hrd : s.reset_detected = false)
    (hlast : s.target_angles.length ≤ s.current_target_index + 1) :
    (rotary_loop_iter s).2.fired_reset = true ∧
    (rotary_loop_iter s).2.completed = true ∧
    (rotary_loop_iter s).1.output = false ∧
    (rotary_loop_iter s).1.encoder_active = false ∧
    (rotary_loop_iter s).1.loop_running = false ∧
    ∀ p : Int, rotary_loop_iter { (rotary_loop_iter s).1 with position := p } =
        ({ (rotary_loop_iter s).1 with position := p }, noPollEvent) := by
  obtain ⟨ta, idx, ea, rd, tr, lr, out, pos⟩ := s
  simp only at hrun hact hq hpos hrd hlast
  subst hrun hact hrd
  by_cases htr : tr = false ∧ ta[idx]?.getD 0 ≤ 2 * pos
  · simp [rotary_loop_iter, stop_encoder, noPollEvent, htr, htr.1, htr.2, hpos, hq, hlast]
  · simp [rotary_loop_iter, stop_encoder, noPollEvent, htr, hpos, hq, hlast]

/-- Witness for C9: queue `[90]`, index 0, triggered, mechanism back at 2
half-steps; the next poll completes the run. -/
theorem C9_completion_witness :
    (rotary_loop_iter lastTargetNearZero).2.fired_reset = true ∧
    (rotary_loop_iter lastTargetNearZero).2.completed = true ∧
    (rotary_loop_iter lastTargetNearZero).1.output = false ∧
    (rotary_loop_iter lastTargetNearZero).1.encoder_active = false ∧
    (rotary_loop_iter lastTargetNearZero).1.loop_running = false ∧
    ∀ p : Int, rotary_loop_iter { (rotary_loop_iter lastTargetNearZero).1 with position := p } =
        ({ (rotary_loop_iter lastTargetNearZero).1 with position := p }, noPollEvent) :=
  C9_completion lastTargetNearZero (by decide) (by decide) (by decide) (by decide)
    (by decide) (by decide)

/-- If one poll iteration fires the reset transition, the near-zero latch
`reset_detected` is set in the resulting state: the non-completion path
cannot clear it in the same iteration, since clearing needs `angle > 5`
while the reset needed `angle < 2`. -/
theorem reset_latched_after_fire (s : SeqState)
    (h : (rotary_loop_iter s).2.fired_reset = true) :
    (rotary_loop_iter s).1.reset_detected = true := by
  obtain ⟨ta, idx, ea, rd, tr, lr, out, pos⟩ := s
  by_cases h1 : lr = false
  · simp [rotary_loop_iter, noPollEvent, h1] at h
  by_cases h2 : ea = false ∨ ta = []
  · simp only [Bool.not_eq_false] at h1
    simp [rotary_loop_iter, noPollEvent, h1, h2] at h
  simp only [Bool.not_eq_false] at h1
  by_cases htr : tr = false ∧ ta[idx]?.getD 0 ≤ 2 * pos <;>
  by_cases hp4 : pos < 4 <;>
  by_cases hrd2 : rd = false <;>
  by_cases hcomp : ta.length ≤ idx + 1 <;>
  by_cases h10 : 10 < pos <;>
  simp_all [rotary_loop_iter, stop_encoder, noPollEvent] <;>
  split_ifs <;> simp_all <;> omega

/-- While the near-zero latch `reset_detected` is set, a poll that observes
a position of at most 10 half-steps can neither fire the reset transition
(its guard needs the latch clear) nor clear the latch (clearing needs
`angle > 5`, i.e. position strictly above 10 half-steps). -/
theorem reset_blocked_of_latched (s : SeqState) (p : Int)
    (hl : s.reset_detected = true) (hp : p ≤ 10) :
    (rotary_loop_iter { s with position := p }).2.fired_reset = false ∧
    (rotary_loop_iter { s with position := p }).1.reset_detected = true := by
  obtain ⟨ta, idx, ea, rd, tr, lr, out, pos⟩ := s
  simp only at hl
  subst hl
  by_cases h1 : lr = false
  · simp [rotary_loop_iter, noPollEvent, h1]
  by_cases h2 : ea = false ∨ ta = []
  · simp [rotary_loop_iter, noPollEvent, h1, h2]
  by_cases htr : tr = false ∧ ta[idx]?.getD 0 ≤ 2 * p <;>
  simp_all [rotary_loop_iter, stop_encoder, noPollEvent] <;>
  split_ifs <;> first | rfl | omega | simp_all

/-- Running any number of polls all of which observe a position of at most
10 half-steps, starting with the near-zero latch set, fires no reset and
leaves the latch set. -/
theorem no_reset_while_low (obs : List Int) :
    ∀ s : SeqState, s.reset_detected = true → (∀ p ∈ obs, p ≤ 10) →
      (∀ e ∈ (run_polls s obs).2, e.fired_reset = false) ∧
      (run_polls s obs).1.reset_detected = true := by
  induction obs with
  | nil =>
      intro s hl _
      simp [run_polls, hl]
  | cons p rest ih =>
      intro s hl hobs
      have hp : p ≤ 10 := hobs p (List.mem_cons_self p rest)
      have hstep := reset_blocked_of_latched s p hl hp
      have hrest := ih (rotary_loop_iter { s with position := p }).1 hstep.2
        fun q hq => hobs q (List.mem_cons_of_mem p hq)
      refine ⟨?_, ?_⟩
      · intro e he
        simp only [run_polls, List.mem_cons] at he
        rcases he with rfl | he
        · exact hstep.1
        · exact hrest.1 e he
      · simpa [run_polls] using hrest.2

/-- C8: once a poll has fired the reset transition, no later poll can fire
a second reset - however many polls observe the near-zero band - until some
poll has observed a position strictly above 10 half-steps (angle above 5
degrees), because only the `angle > 5` branch clears `reset_detected`. -/
theorem C8_rearm_guard (s : SeqState) (obs : List Int)
    (hfire : (rotary_loop_iter s).2.fired_reset = true)
    (hlow : ∀ p ∈ obs, p ≤ 10) :
    ∀ e ∈ (run_polls (rotary_loop_iter s).1 obs).2, e.fired_reset = false :=
  (no_reset_while_low obs (rotary_loop_iter s).1
    (reset_latched_after_fire s hfire) hlow).1

/-- Witness for C8: the first poll after `set 45,90` fires a reset at
position 0; four further polls inside the 0..10 band fire none. -/
theorem C8_rearm_guard_witness :
    (rotary_loop_iter afterSet4590).2.fired_reset = true ∧
    (∀ p ∈ [(0 : Int), 2, 10, 3], p ≤ 10) ∧
    ∀ e ∈ (run_polls (rotary_loop_iter afterSet4590).1 [(0 : Int), 2, 10, 3]).2,
      e.fired_reset = false :=
  ⟨by decide, by decide,
   C8_rearm_guard afterSet4590 [(0 : Int), 2, 10, 3] (by decide) (by decide)⟩
/-- The denominator produced by `parseDecimal` is positive (it is 1 or a
power of ten). -/
theorem parseDecimal_den_pos (l : List Char) (p : Int × Nat)
    (h : parseDecimal l = some p) : 0 < p.2 := by
  unfold parseDecimal at h
  split at h <;> dsimp only at h <;> split at h <;> try split_ifs at h
  all_goals
    first
      | exact Option.noConfusion h
      | (injection h with h
         subst h
         dsimp only
         positivity)

/-- C4 counterexample: the claim says every accepted value ai becomes the
target `round(ai * 2)`.  For the command `set 0.75` (the literal 0.75 is
exact in binary floating point) the code computes `int(float("0.75") * 2)
= int(1.5) = 1`, while `round(0.75 * 2) = round(1.5) = 2` under both the
mathematical and the Python (banker's) rounding convention, so the claim
fails at ai = 0.75. -/
theorem C4_round_counterexample :
    parseDecimal (pyStrip "0.75".data) = some (75, 100) ∧
    decValue (75, 100) = 3 / 4 ∧
    parse_targets "set 0.75".data = some [1] ∧
    round (decValue (75, 100) * 2) = 2 ∧ (1 : ℤ) ≠ 2 := by
  refine ⟨by decide, ?_, by decide, ?_, by decide⟩
  · rw [decValue]
    norm_num
  · rw [decValue, round_eq]
    norm_num

/-- C4 amended: each accepted decimal value ai becomes the half-step
target `int(ai * 2)` - the value 2*ai truncated toward zero, so for
nonnegative ai the greatest integer not exceeding 2*ai - rather than
`round(ai * 2)`; for the whole-number or half-degree values of the
examples (such as `set 45,90`, which yields `[90, 180]`) the two agree. -/
theorem C4_truncation (a : List Char) (num : Int) (den : Nat)
    (h : parseDecimal (pyStrip a) = some (num, den)) (hnum : 0 ≤ num) :
    parse_token a = some (Int.tdiv (2 * num) (den : Int)) ∧
    ((Int.tdiv (2 * num) (den : Int) : ℚ) ≤ decValue (num, den) * 2 ∧
      decValue (num, den) * 2 < (Int.tdiv (2 * num) (den : Int) : ℚ) + 1) ∧
    parse_targets "set 45,90".data = some [90, 180] := by
  have hden : 0 < den := parseDecimal_den_pos _ _ h
  have hfloor : Int.tdiv (2 * num) (den : Int) = ⌊decValue (num, den) * 2⌋ := by
    have h1 : Int.tdiv (2 * num) (den : Int) = (2 * num) / (den : Int) :=
      Int.tdiv_eq_ediv (by omega) (by positivity)
    have h2 : decValue (num, den) * 2 = ((2 * num : Int) : ℚ) / ((den : Nat) : ℚ) := by
      rw [decValue]
      push_cast
      ring
    rw [h1, h2, Rat.floor_intCast_div_natCast]
  refine ⟨by simp [parse_token, h], ⟨?_, ?_⟩, by decide⟩
  · rw [hfloor]
    exact Int.floor_le _
  · rw [hfloor]
    exact Int.lt_floor_add_one _

/-- Witness for the amended C4 at the token `0.5`: the computed target is
`int(2 * 0.5) = 1`, bracketed by the truncation bounds. -/
theorem C4_truncation_witness :
    parse_token "0.5".data = some (Int.tdiv (2 * 5) ((10 : Nat) : Int)) ∧
    ((Int.tdiv (2 * 5) ((10 : Nat) : Int) : ℚ) ≤ decValue (5, 10) * 2 ∧
      decValue (5, 10) * 2 < (Int.tdiv (2 * 5) ((10 : Nat) : Int) : ℚ) + 1) ∧
    parse_targets "set 45,90".data = some [90, 180] :=
  C4_truncation "0.5".data 5 10 (by decide) (by decide)
